import Mathlib

/-!
Verification of the PromQL query-generation engine and the tool-call
handlers of the grafana-agent repository.  Metric names, queries and all
other Go strings are modelled as `List Char`; the Go standard-library
string operations used by the source (`strings.Contains`,
`strings.HasSuffix`, `strings.TrimSuffix`, `strings.ReplaceAll`,
`strings.Count`, `strings.Index`, `strings.FieldsFunc`, `strings.Trim`)
are given executable definitions below with the same semantics on the
inputs the program uses (all search patterns in the source are
non-empty).
-/

namespace GrafanaAgent

/-- Go strings are modelled as lists of characters. -/
abbrev Str := List Char

/-- `strings.Contains s sub` : `sub` occurs as a contiguous substring of `s`
(true when `sub` is empty, as in Go). -/
def goContains : Str → Str → Bool
  | [], sub => sub.isEmpty
  | c :: t, sub => sub.isPrefixOf (c :: t) || goContains t sub

/-- `strings.HasSuffix s suf`. -/
def goHasSuffix (s suf : Str) : Bool := suf.isSuffixOf s

/-- `strings.TrimSuffix s suf` : removes one trailing copy of `suf` when present. -/
def goTrimSuffix (s suf : Str) : Str :=
  if suf.isSuffixOf s then s.take (s.length - suf.length) else s

/-- Fuel-indexed core of `strings.ReplaceAll`: each step consumes at least one
character, so fuel equal to the length of the scanned string suffices. -/
def goReplaceAllAux (old new : Str) : Nat → Str → Str
  | _, [] => []
  | 0, s => s
  | fuel + 1, c :: t =>
    if old.isPrefixOf (c :: t) then
      new ++ goReplaceAllAux old new fuel (t.drop (old.length - 1))
    else
      c :: goReplaceAllAux old new fuel t

/-- `strings.ReplaceAll s old new` for non-empty `old`: left-to-right,
non-overlapping replacement (every call site of the source uses a
non-empty `old`). -/
def goReplaceAll (old new s : Str) : Str := goReplaceAllAux old new s.length s

/-- Fuel-indexed core of `strings.Count`. -/
def goCountAux (sub : Str) : Nat → Str → Nat
  | _, [] => 0
  | 0, _ => 0
  | fuel + 1, c :: t =>
    if sub.isPrefixOf (c :: t) then
      goCountAux sub fuel (t.drop (sub.length - 1)) + 1
    else
      goCountAux sub fuel t

/-- `strings.Count s sub` for non-empty `sub`: number of non-overlapping
occurrences. -/
def goCount (sub s : Str) : Nat := goCountAux sub s.length s

/-- `strings.Index s sub` : index of the first occurrence of `sub`,
`none` standing for Go's `-1`. -/
def goIndex : Str → Str → Option Nat
  | [], sub => if sub.isEmpty then some 0 else none
  | c :: t, sub =>
    if sub.isPrefixOf (c :: t) then some 0
    else (goIndex t sub).map (· + 1)

/-- Accumulator-passing core of `strings.FieldsFunc`. -/
def goFieldsFuncAux (f : Char → Bool) : Str → Str → List Str
  | [], acc => if acc.isEmpty then [] else [acc.reverse]
  | c :: t, acc =>
    if f c then
      if acc.isEmpty then goFieldsFuncAux f t []
      else acc.reverse :: goFieldsFuncAux f t []
    else
      goFieldsFuncAux f t (c :: acc)

/-- `strings.FieldsFunc s f` : splits `s` at characters satisfying `f`,
dropping empty fields. -/
def goFieldsFunc (f : Char → Bool) (s : Str) : List Str :=
  goFieldsFuncAux f s []

/-- `strings.Trim s cutset` : removes leading and trailing characters
belonging to `cutset`. -/
def goTrim (cutset : Str) (s : Str) : Str :=
  ((s.dropWhile (fun c => cutset.contains c)).reverse.dropWhile
    (fun c => cutset.contains c)).reverse

/-- `strings.ToLower`, restricted to the ASCII inputs the source feeds it. -/
def goToLower (s : Str) : Str := s.map Char.toLower

/-- `MetricType` from `promql.go`: the five metric-type constants. -/
inductive MetricType where
  | counter
  | gauge
  | histogram
  | summary
  | unknown
deriving DecidableEq

/-- `string(MetricType)`: the underlying string of each constant. -/
def metricTypeString : MetricType → Str
  | .counter => ("counter".toList)
  | .gauge => ("gauge".toList)
  | .histogram => ("histogram".toList)
  | .summary => ("summary".toList)
  | .unknown => ("unknown".toList)

/-- `MetricInfo`: metadata about a Prometheus metric. -/
structure MetricInfo where
  name : Str
  type : MetricType
  help : Str
  labels : List Str
deriving DecidableEq

/-- `QuerySuggestion`: a suggested PromQL query for a metric. -/
structure QuerySuggestion where
  query : Str
  description : Str
  visualizationType : Str
  yAxisLabel : Str
deriving DecidableEq

/-- `inferMetricType` : infers the metric type from the metric name by
case-sensitive substring and suffix rules, first match winning. -/
def inferMetricType (metricName : Str) : MetricType :=
  if goHasSuffix metricName ("_total".toList)
      || goContains metricName ("_count".toList)
      || goContains metricName ("requests".toList)
      || goContains metricName ("errors".toList) then
    .counter
  else if goContains metricName ("_bucket".toList)
      || goContains metricName ("_duration".toList)
      || goContains metricName ("_latency".toList) then
    .histogram
  else if goContains metricName ("size".toList)
      || goContains metricName ("usage".toList)
      || goContains metricName ("memory".toList)
      || goContains metricName ("cpu".toList) then
    .gauge
  else
    .unknown

/-- The `rate(<name>[5m])` suggestion emitted first by `generateCounterQueries`. -/
def counterRateSuggestion (metricName : Str) : QuerySuggestion :=
  { query := ("rate(".toList) ++ metricName ++ ("[5m])".toList)
    description := ("Rate per second over 5 minutes".toList)
    visualizationType := ("timeseries".toList)
    yAxisLabel := ("per second".toList) }

/-- The `increase(<name>[1h])` suggestion emitted second by `generateCounterQueries`. -/
def counterIncreaseSuggestion (metricName : Str) : QuerySuggestion :=
  { query := ("increase(".toList) ++ metricName ++ ("[1h])".toList)
    description := ("Total increase over 1 hour".toList)
    visualizationType := ("timeseries".toList)
    yAxisLabel := ("total".toList) }

/-- The `sum by (<label>) (rate(<name>[5m]))` suggestion emitted per eligible
label by `generateCounterQueries`. -/
def counterGroupedSuggestion (metricName label : Str) : QuerySuggestion :=
  { query := ("sum by (".toList) ++ label ++ (") (rate(".toList) ++ metricName
      ++ ("[5m]))".toList)
    description := ("Rate per second grouped by ".toList) ++ label
    visualizationType := ("timeseries".toList)
    yAxisLabel := ("per second".toList) }

/-- The label-eligibility test of the loops in `generateCounterQueries` and
`generateGaugeQueries`: `label != "__name__" && !strings.HasPrefix(label, "__")`. -/
def labelEligible (label : Str) : Bool :=
  decide (label ≠ ("__name__".toList)) && !(("__".toList).isPrefixOf label)

/-- `generateCounterQueries`: the two fixed suggestions, then (when any labels
exist) one grouped suggestion appended per eligible label in order. -/
def generateCounterQueries (metricInfo : MetricInfo) : List QuerySuggestion :=
  let metricName := metricInfo.name
  let suggestions := [counterRateSuggestion metricName,
    counterIncreaseSuggestion metricName]
  if 0 < metricInfo.labels.length then
    metricInfo.labels.foldl
      (fun acc label =>
        if labelEligible label then acc ++ [counterGroupedSuggestion metricName label]
        else acc)
      suggestions
  else
    suggestions

/-- The `avg by (<label>) (<name>)` suggestion emitted per eligible label by
`generateGaugeQueries`. -/
def gaugeGroupedSuggestion (metricName label : Str) : QuerySuggestion :=
  { query := ("avg by (".toList) ++ label ++ (") (".toList) ++ metricName
      ++ (")".toList)
    description := ("Average grouped by ".toList) ++ label
    visualizationType := ("timeseries".toList)
    yAxisLabel := ("avg value".toList) }

/-- `generateGaugeQueries`: raw value and `avg_over_time`, then (when labels
exist) `avg`/`max`/`min` stats and one `avg by (<label>)` per eligible label. -/
def generateGaugeQueries (metricInfo : MetricInfo) : List QuerySuggestion :=
  let metricName := metricInfo.name
  let suggestions : List QuerySuggestion :=
    [{ query := metricName
       description := ("Current value".toList)
       visualizationType := ("timeseries".toList)
       yAxisLabel := ("value".toList) },
     { query := ("avg_over_time(".toList) ++ metricName ++ ("[1h])".toList)
       description := ("Average over 1 hour".toList)
       visualizationType := ("timeseries".toList)
       yAxisLabel := ("avg value".toList) }]
  if 0 < metricInfo.labels.length then
    let withStats := suggestions ++
      [{ query := ("avg(".toList) ++ metricName ++ (")".toList)
         description := ("Average across all instances".toList)
         visualizationType := ("stat".toList)
         yAxisLabel := ("avg value".toList) },
       { query := ("max(".toList) ++ metricName ++ (")".toList)
         description := ("Maximum value".toList)
         visualizationType := ("stat".toList)
         yAxisLabel := ("max value".toList) },
       { query := ("min(".toList) ++ metricName ++ (")".toList)
         description := ("Minimum value".toList)
         visualizationType := ("stat".toList)
         yAxisLabel := ("min value".toList) }]
    metricInfo.labels.foldl
      (fun acc label =>
        if labelEligible label then acc ++ [gaugeGroupedSuggestion metricName label]
        else acc)
      withStats
  else
    suggestions

/-- `generateHistogramQueries`: strips `_bucket`, `_count`, `_sum` suffixes in
that order and emits the three quantile queries, the request rate and the
average duration. -/
def generateHistogramQueries (metricInfo : MetricInfo) : List QuerySuggestion :=
  let baseName :=
    goTrimSuffix (goTrimSuffix (goTrimSuffix metricInfo.name ("_bucket".toList))
      ("_count".toList)) ("_sum".toList)
  [{ query := ("histogram_quantile(0.50, rate(".toList) ++ baseName
      ++ ("_bucket[5m]))".toList)
     description := ("50th percentile (median) over 5 minutes".toList)
     visualizationType := ("timeseries".toList)
     yAxisLabel := ("duration".toList) },
   { query := ("histogram_quantile(0.95, rate(".toList) ++ baseName
      ++ ("_bucket[5m]))".toList)
     description := ("95th percentile over 5 minutes".toList)
     visualizationType := ("timeseries".toList)
     yAxisLabel := ("duration".toList) },
   { query := ("histogram_quantile(0.99, rate(".toList) ++ baseName
      ++ ("_bucket[5m]))".toList)
     description := ("99th percentile over 5 minutes".toList)
     visualizationType := ("timeseries".toList)
     yAxisLabel := ("duration".toList) },
   { query := ("rate(".toList) ++ baseName ++ ("_count[5m])".toList)
     description := ("Request rate (requests per second)".toList)
     visualizationType := ("timeseries".toList)
     yAxisLabel := ("requests/sec".toList) },
   { query := ("rate(".toList) ++ baseName ++ ("_sum[5m]) / rate(".toList)
      ++ baseName ++ ("_count[5m])".toList)
     description := ("Average duration".toList)
     visualizationType := ("timeseries".toList)
     yAxisLabel := ("avg duration".toList) }]

/-- The request-rate suggestion of `generateSummaryQueries`. -/
def summaryRateSuggestion (baseName : Str) : QuerySuggestion :=
  { query := ("rate(".toList) ++ baseName ++ ("_count[5m])".toList)
    description := ("Request rate (requests per second)".toList)
    visualizationType := ("timeseries".toList)
    yAxisLabel := ("requests/sec".toList) }

/-- The average-value suggestion of `generateSummaryQueries`. -/
def summaryAvgSuggestion (baseName : Str) : QuerySuggestion :=
  { query := ("rate(".toList) ++ baseName ++ ("_sum[5m]) / rate(".toList)
      ++ baseName ++ ("_count[5m])".toList)
    description := ("Average value".toList)
    visualizationType := ("timeseries".toList)
    yAxisLabel := ("avg value".toList) }

/-- The `<baseName>{quantile="<q>"}` suggestion of `generateSummaryQueries`. -/
def summaryQuantileSuggestion (baseName q : Str) : QuerySuggestion :=
  { query := baseName ++ ("\x7bquantile=\x22".toList) ++ q ++ ("\x22\x7d".toList)
    description := q ++ (" quantile".toList)
    visualizationType := ("timeseries".toList)
    yAxisLabel := ("value".toList) }

/-- `generateSummaryQueries`: strips `_count` then `_sum`, emits the request
rate and average value, and — only when the metric name contains `_count` or
`_sum` — appends the four common-quantile suggestions. -/
def generateSummaryQueries (metricInfo : MetricInfo) : List QuerySuggestion :=
  let baseName :=
    goTrimSuffix (goTrimSuffix metricInfo.name ("_count".toList)) ("_sum".toList)
  let suggestions : List QuerySuggestion :=
    [summaryRateSuggestion baseName, summaryAvgSuggestion baseName]
  if goContains metricInfo.name ("_count".toList)
      || goContains metricInfo.name ("_sum".toList) then
    [("0.5".toList), ("0.9".toList), ("0.95".toList), ("0.99".toList)].foldl
      (fun acc q => acc ++ [summaryQuantileSuggestion baseName q]) suggestions
  else
    suggestions

/-- `generateDefaultQueries`: falls back to the counter generator when the name
matches the counter naming heuristic, otherwise the raw value plus a generic
rate. -/
def generateDefaultQueries (metricInfo : MetricInfo) : List QuerySuggestion :=
  let metricName := metricInfo.name
  if goHasSuffix metricName ("_total".toList)
      || goContains metricName ("_count".toList)
      || goContains metricName ("requests".toList)
      || goContains metricName ("errors".toList) then
    generateCounterQueries metricInfo
  else
    [{ query := metricName
       description := ("Raw metric value".toList)
       visualizationType := ("timeseries".toList)
       yAxisLabel := ("value".toList) },
     { query := ("rate(".toList) ++ metricName ++ ("[5m])".toList)
       description := ("Rate of change over 5 minutes".toList)
       visualizationType := ("timeseries".toList)
       yAxisLabel := ("per second".toList) }]

/-- `generateQueries`: dispatches on the metric type. -/
def generateQueries (metricInfo : MetricInfo) : List QuerySuggestion :=
  match metricInfo.type with
  | .counter => generateCounterQueries metricInfo
  | .gauge => generateGaugeQueries metricInfo
  | .histogram => generateHistogramQueries metricInfo
  | .summary => generateSummaryQueries metricInfo
  | .unknown => generateDefaultQueries metricInfo

/-- `getBestQuery`: first element, or the fixed `up` fallback on an empty list. -/
def getBestQuery (suggestions : List QuerySuggestion) : QuerySuggestion :=
  match suggestions with
  | [] =>
    { query := ("up".toList)
      description := ("Default query".toList)
      visualizationType := ("timeseries".toList)
      yAxisLabel := ("value".toList) }
  | s :: _ => s

/-- `extractPercentile`: recognizes the four percentile literals inside a
query, first match winning. -/
def extractPercentile (query : Str) : Str :=
  if goContains query ("0.50".toList) then ("50th".toList)
  else if goContains query ("0.95".toList) then ("95th".toList)
  else if goContains query ("0.99".toList) then ("99th".toList)
  else if goContains query ("0.90".toList) then ("90th".toList)
  else []

/-- `extractMetricNameFromHistogramQuery`: takes the text before the first
`_bucket`, splits it at spaces, parentheses and commas, and returns the last
word trimmed of `()[], ` characters. -/
def extractMetricNameFromHistogramQuery (query : Str) : Str :=
  if goContains query ("_bucket".toList) then
    match goIndex query ("_bucket".toList) with
    | none => []
    | some bucketIndex =>
      let beforeBucket := query.take bucketIndex
      let words := goFieldsFunc
        (fun r => r == ' ' || r == '(' || r == ',' || r == ')') beforeBucket
      if words.isEmpty then []
      else
        let lastWord := words.getLastD []
        goTrim ("()[], ".toList) lastWord
  else []

/-- `enhanceDescription`: rewrites a suggestion description by the ordered
name- and query-pattern rules of `llm_assistance.go`. -/
def enhanceDescription (metricInfo : MetricInfo) (suggestion : QuerySuggestion) :
    Str :=
  let baseName := metricInfo.name
  let baseDesc := suggestion.description
  if goContains baseName ("http".toList)
      && goContains suggestion.query ("rate(".toList) then
    ("HTTP ".toList) ++ goToLower baseDesc
  else if (goContains baseName ("error".toList)
        || goContains baseName ("fail".toList))
      && goContains suggestion.query ("rate(".toList) then
    ("Error ".toList) ++ goToLower baseDesc
  else if goContains baseName ("memory".toList)
      || goContains baseName ("cpu".toList) then
    ("Resource Usage: ".toList) ++ baseDesc
  else if goContains baseName ("latency".toList)
      || goContains baseName ("duration".toList) then
    ("Performance: ".toList) ++ baseDesc
  else if goContains suggestion.query ("histogram_quantile".toList)
      && !(extractPercentile suggestion.query).isEmpty then
    let percentile := extractPercentile suggestion.query
    percentile ++ (" percentile (".toList) ++ percentile
      ++ (" of requests are faster)".toList)
  else if goContains suggestion.query ("increase(".toList) then
    ("Total ".toList) ++ goToLower baseDesc
  else
    baseDesc

/-- `optimizeQuery`: the three textual rewrites — `[5m]` to `[2m]` for
request/http metrics, the no-op error-metric branch, and the best-effort
`sum(rate(...)) ... by (le)` histogram rewrite. -/
def optimizeQuery (metricInfo : MetricInfo) (query : Str) : Str :=
  let optimized := query
  let optimized :=
    if goContains query ("rate(".toList) && goContains query ("[5m]".toList) then
      if goContains metricInfo.name ("request".toList)
          || goContains metricInfo.name ("http".toList) then
        goReplaceAll ("[5m]".toList) ("[2m]".toList) optimized
      else optimized
    else optimized
  let optimized :=
    if goContains metricInfo.name ("error".toList)
        && goContains query ("rate(".toList) then
      if !goContains query ("sum".toList) then
        goReplaceAll ("rate(".toList) ("rate(".toList) optimized
      else optimized
    else optimized
  let optimized :=
    if goContains query ("histogram_quantile".toList) then
      if !goContains query ("sum(rate(".toList)
          && !goContains query ("sum by".toList) then
        let metricName := extractMetricNameFromHistogramQuery query
        if !metricName.isEmpty then
          let optimized := goReplaceAll
            (("rate(".toList) ++ metricName ++ ("_bucket[".toList))
            (("sum(rate(".toList) ++ metricName ++ ("_bucket[".toList))
            optimized
          if goCount ("sum(".toList) optimized == 1 then
            goReplaceAll ("]))".toList) ("])) by (le)".toList) optimized
          else optimized
        else optimized
      else optimized
    else optimized
  optimized

/-- `suggestVisualizationType`: overrides the visualization type by query and
name patterns, keeping the existing one otherwise. -/
def suggestVisualizationType (metricInfo : MetricInfo)
    (suggestion : QuerySuggestion) : Str :=
  if goContains suggestion.query ("histogram_quantile".toList) then
    ("timeseries".toList)
  else if goContains suggestion.query ("avg(".toList)
      && !goContains suggestion.query ("over_time".toList) then
    ("stat".toList)
  else if goContains suggestion.query ("max(".toList)
      || goContains suggestion.query ("min(".toList) then
    ("stat".toList)
  else if goContains metricInfo.name ("ratio".toList)
      || goContains metricInfo.name ("percent".toList) then
    ("gauge".toList)
  else
    suggestion.visualizationType

/-- `generateContextualQueries`: the SLO/alerting suggestions synthesized from
the metric name and type alone. -/
def generateContextualQueries (metricInfo : MetricInfo) : List QuerySuggestion :=
  let metricName := metricInfo.name
  let contextual : List QuerySuggestion := []
  let contextual :=
    if (goContains metricName ("http_request".toList)
          || goContains metricName ("request".toList))
        && metricInfo.type == .counter then
      contextual ++
        [{ query := ("rate(".toList) ++ metricName
            ++ ("\x7bstatus=~\x225..\x22\x7d[5m]) / rate(".toList)
            ++ metricName ++ ("[5m])".toList)
           description := ("Error rate (5xx responses)".toList)
           visualizationType := ("timeseries".toList)
           yAxisLabel := ("error ratio".toList) },
         { query := ("rate(".toList) ++ metricName
            ++ ("\x7bstatus=~\x222..\x22\x7d[5m]) / rate(".toList)
            ++ metricName ++ ("[5m])".toList)
           description := ("Success rate (2xx responses)".toList)
           visualizationType := ("stat".toList)
           yAxisLabel := ("success ratio".toList) }]
    else contextual
  let contextual :=
    if metricInfo.type == .counter
        && (goContains metricName ("error".toList)
          || goContains metricName ("fail".toList)) then
      contextual ++
        [{ query := ("increase(".toList) ++ metricName ++ ("[1h]) > 10".toList)
           description := ("High error count alert (>10/hour)".toList)
           visualizationType := ("table".toList)
           yAxisLabel := ("count".toList) }]
    else contextual
  let contextual :=
    if goContains metricName ("cpu".toList) && metricInfo.type == .gauge then
      contextual ++
        [{ query := ("(".toList) ++ metricName ++ (" > 80)".toList)
           description := ("High CPU usage alert (>80%)".toList)
           visualizationType := ("table".toList)
           yAxisLabel := ("percent".toList) }]
    else contextual
  let contextual :=
    if goContains metricName ("memory".toList) && metricInfo.type == .gauge then
      contextual ++
        [{ query := ("(".toList) ++ metricName ++ (" / 1024 / 1024 / 1024)".toList)
           description := ("Memory usage in GB".toList)
           visualizationType := ("timeseries".toList)
           yAxisLabel := ("GB".toList) }]
    else contextual
  contextual

/-- `enhanceQuery`: the enhanced copy of one suggestion — new description,
optimized query text and re-suggested visualization type; the y-axis label is
carried over from the input copy. -/
def enhanceQuery (metricInfo : MetricInfo) (suggestion : QuerySuggestion) :
    QuerySuggestion :=
  { suggestion with
    description := enhanceDescription metricInfo suggestion
    query := optimizeQuery metricInfo suggestion.query
    visualizationType := suggestVisualizationType metricInfo suggestion }

/-- `enhanceQueries`: appends the enhanced copy of each input suggestion in
order, then the contextual suggestions (the unused Go `ctx` argument is
dropped). -/
def enhanceQueries (metricInfo : MetricInfo)
    (suggestions : List QuerySuggestion) : List QuerySuggestion :=
  let enhanced := suggestions.foldl
    (fun acc suggestion => acc ++ [enhanceQuery metricInfo suggestion]) []
  enhanced ++ generateContextualQueries metricInfo

/-- A dynamically-typed tool-call argument value (Go `any`), with the shapes
the handlers distinguish by type assertion. -/
inductive ArgVal where
  | str (s : Str)
  | arr (xs : List ArgVal)
  | boolV (b : Bool)
  | other

/-- The arguments of `generate_promql_queries` that its handler reads from the
`args` map (`none` models an absent key). -/
structure GenArgs where
  prometheusUrl : Option ArgVal
  metricNames : Option ArgVal

/-- `QueryGenerationResult`: the per-metric entry of the response (Go zero
values for the unset string fields are empty strings, for slices `nil`). -/
structure QueryGenerationResult where
  metricName : Str
  metricType : Str
  metricHelp : Str
  labels : List Str
  suggestions : List QuerySuggestion
  error : Option Str
deriving DecidableEq

/-- `GeneratePromqlQueriesResponse` (the final JSON marshalling is not
modelled; the response value itself is returned). -/
structure GeneratePromqlQueriesResponse where
  prometheusUrl : Str
  results : List QueryGenerationResult
deriving DecidableEq

/-- The loop body of `GeneratePromqlQueriesHandler` for one metric name:
`fetchMeta` stands for the `GetMetricMetadata` call on the injected `PromQL`
service and `genQueries` for its `GenerateQueries` method; each metric is
processed independently of the others. -/
def processMetric (fetchMeta : Str → Except Str MetricInfo)
    (genQueries : MetricInfo → List QuerySuggestion)
    (metricName : Str) : QueryGenerationResult :=
  match fetchMeta metricName with
  | .error e =>
    { metricName := metricName
      metricType := []
      metricHelp := []
      labels := []
      suggestions := []
      error := some (("failed to get metadata: ".toList) ++ e) }
  | .ok metricInfo =>
    let suggestions := genQueries metricInfo
    if suggestions.isEmpty then
      { metricName := metricName
        metricType := metricTypeString metricInfo.type
        metricHelp := metricInfo.help
        labels := metricInfo.labels
        suggestions := []
        error := some ("no query suggestions could be generated".toList) }
    else
      { metricName := metricName
        metricType := metricTypeString metricInfo.type
        metricHelp := metricInfo.help
        labels := metricInfo.labels
        suggestions := suggestions
        error := none }

/-- `GeneratePromqlQueriesHandler`: argument validation in source order, then
one result entry per string element of `metric_names` (non-string elements are
silently dropped by the collection loop). -/
def generatePromqlQueriesHandler (fetchMeta : Str → Except Str MetricInfo)
    (genQueries : MetricInfo → List QuerySuggestion)
    (args : GenArgs) : Except Str GeneratePromqlQueriesResponse :=
  match args.prometheusUrl with
  | some (.str prometheusURL) =>
    if prometheusURL.isEmpty then
      .error ("prometheus_url is required and must be a string".toList)
    else
      match args.metricNames with
      | none => .error ("metric_names is required".toList)
      | some (.arr metricNamesSlice) =>
        if metricNamesSlice.isEmpty then
          .error ("metric_names cannot be empty".toList)
        else
          let metricNames := metricNamesSlice.filterMap
            (fun v => match v with | .str s => some s | _ => none)
          .ok { prometheusUrl := prometheusURL
                results := metricNames.map (processMetric fetchMeta genQueries) }
      | some _ => .error ("metric_names must be an array".toList)
  | _ => .error ("prometheus_url is required and must be a string".toList)

/-- `config.GrafanaConfig`: the fields `CreateDashboardHandler` reads. -/
structure GrafanaConfig where
  url : Str
  apiKey : Str
  deployEnabled : Bool
deriving DecidableEq

/-- The arguments of `create_dashboard` that determine its control flow (the
remaining arguments only shape the assembled document, which is abstracted). -/
structure CreateArgs where
  dashboardTitle : Option ArgVal
  deploy : Option ArgVal
  grafanaUrl : Option ArgVal
  prometheusUrl : Option ArgVal
  metricNames : Option ArgVal
  panels : Option ArgVal

/-- The successful outcome of `CreateDashboardHandler`: either the assembled
dashboard JSON or a deployment report (both documents abstracted to the title
and the effective panel list). -/
inductive CreateDashboardOutcome where
  | dashboardJson (title : Str) (panels : List ArgVal)
  | deployed (title : Str) (panels : List ArgVal) (grafanaUrl : Str)

/-- The `deploy && deployRequested` test of `CreateDashboardHandler`: true
exactly when the `deploy` argument is present, boolean and `true`. -/
def deployFlag (args : CreateArgs) : Bool :=
  match args.deploy with
  | some (.boolV b) => b
  | _ => false

/-- The Grafana URL resolution of `CreateDashboardHandler`: the `grafana_url`
argument when a non-empty string, else the configured URL, else empty. -/
def resolveGrafanaUrl (cfg : Option GrafanaConfig) (args : CreateArgs) : Str :=
  match args.grafanaUrl with
  | some (.str u) => if u.isEmpty then (match cfg with
      | some c => c.url
      | none => []) else u
  | _ => match cfg with
    | some c => c.url
    | none => []

/-- The deployment precheck block of `CreateDashboardHandler`, run when the
`deploy` argument is true: deployment must be enabled in the configuration and
a Grafana URL must resolve. -/
def deployPrecheck (cfg : Option GrafanaConfig) (args : CreateArgs) :
    Except Str Unit :=
  if deployFlag args then
    match cfg with
    | some c =>
      if !c.deployEnabled then
        .error (("grafana deployment is disabled - set ".toList)
          ++ ("GRAFANA_DEPLOY_ENABLED=true to enable dashboard deployments".toList))
      else if (resolveGrafanaUrl cfg args).isEmpty then
        .error ("deployment requested but no grafana_url provided".toList)
      else .ok ()
    | none =>
      if (resolveGrafanaUrl cfg args).isEmpty then
        .error ("deployment requested but no grafana_url provided".toList)
      else .ok ()
  else .ok ()

/-- `CreateDashboardHandler`: argument validation, deployment prechecks,
panel generation from metric names (`genPanels` stands for
`generatePanelsFromMetrics`, `deployDashboard` for the Grafana client call),
and the `panels are required` validation; the assembled document is abstracted
to its title and panel list. -/
def createDashboardHandler (cfg : Option GrafanaConfig)
    (genPanels : List ArgVal → Str → Except Str (List ArgVal))
    (deployDashboard : Str → Str → Except Str Unit)
    (args : CreateArgs) : Except Str CreateDashboardOutcome :=
  match args.dashboardTitle with
  | some (.str dashboardTitle) =>
    if dashboardTitle.isEmpty then
      .error ("dashboard_title is required and must be a string".toList)
    else
      match deployPrecheck cfg args with
      | .error e => .error e
      | .ok _ =>
        let panelsStep : Except Str (Option ArgVal) :=
          match args.metricNames with
          | some (.arr metricNames) =>
            if !metricNames.isEmpty then
              match args.prometheusUrl with
              | some (.str prometheusURL) =>
                if prometheusURL.isEmpty then
                  .error ("prometheus_url is required when using metric_names".toList)
                else
                  match genPanels metricNames prometheusURL with
                  | .error e =>
                    .error (("failed to generate panels from metrics: ".toList) ++ e)
                  | .ok generated => .ok (some (.arr generated))
              | _ => .error ("prometheus_url is required when using metric_names".toList)
            else .ok args.panels
          | _ => .ok args.panels
        match panelsStep with
        | .error e => .error e
        | .ok effectivePanels =>
          match effectivePanels with
          | some (.arr panels) =>
            if panels.isEmpty then
              .error (("panels are required - provide either \x27panels\x27 ".toList)
                ++ ("array or \x27metric_names\x27 with \x27prometheus_url\x27".toList))
            else if deployFlag args then
              let apiKey := match cfg with
                | some c => c.apiKey
                | none => []
              if apiKey.isEmpty then
                .error (("deployment requested but no API key configured".toList)
                  ++ (" - set GRAFANA_API_KEY".toList))
              else
                match deployDashboard (resolveGrafanaUrl cfg args) apiKey with
                | .error e =>
                  .error (("failed to deploy dashboard to Grafana: ".toList) ++ e)
                | .ok _ =>
                  .ok (.deployed dashboardTitle panels (resolveGrafanaUrl cfg args))
            else
              .ok (.dashboardJson dashboardTitle panels)
          | _ =>
            .error (("panels are required - provide either \x27panels\x27 ".toList)
              ++ ("array or \x27metric_names\x27 with \x27prometheus_url\x27".toList))
  | _ => .error ("dashboard_title is required and must be a string".toList)

/-! Helper lemmas about the append-in-loop folds used by the generators. -/

theorem foldl_filter_append {α β : Type} (p : α → Bool) (f : α → β) :
    ∀ (xs : List α) (init : List β),
      xs.foldl (fun acc a => if p a then acc ++ [f a] else acc) init
        = init ++ (xs.filter p).map f := by
  intro xs
  induction xs with
  | nil => intro init; simp
  | cons a t ih =>
    intro init
    cases h : p a with
    | true =>
      simp only [List.foldl_cons, h, if_pos, List.filter_cons, List.map_cons]
      rw [ih]
      simp [List.append_assoc]
    | false =>
      simp only [List.foldl_cons, h, List.filter_cons]
      rw [if_neg (by simp), ih]
      simp [h]

theorem foldl_map_append {α β : Type} (f : α → β) :
    ∀ (xs : List α) (init : List β),
      xs.foldl (fun acc a => acc ++ [f a]) init = init ++ xs.map f := by
  intro xs
  induction xs with
  | nil => intro init; simp
  | cons a t ih =>
    intro init
    simp only [List.foldl_cons, List.map_cons]
    rw [ih]
    simp [List.append_assoc]

/-- `generateCounterQueries` is the two fixed suggestions followed by one
grouped suggestion per eligible label, in label order. -/
theorem generateCounterQueries_eq (metricInfo : MetricInfo) :
    generateCounterQueries metricInfo
      = [counterRateSuggestion metricInfo.name,
          counterIncreaseSuggestion metricInfo.name]
        ++ (metricInfo.labels.filter labelEligible).map
            (counterGroupedSuggestion metricInfo.name) := by
  unfold generateCounterQueries
  by_cases h : 0 < metricInfo.labels.length
  · simp only [h, if_pos]
    rw [foldl_filter_append]
  · simp only [h, if_neg, not_false_iff]
    have : metricInfo.labels = [] := by
      cases hl : metricInfo.labels with
      | nil => rfl
      | cons a t => rw [hl] at h; simp at h
    rw [this]
    simp

/-- `enhanceQueries` is the enhanced copy of each input suggestion in input
order, followed by the contextual suggestions. -/
theorem enhanceQueries_eq (metricInfo : MetricInfo)
    (suggestions : List QuerySuggestion) :
    enhanceQueries metricInfo suggestions
      = suggestions.map (enhanceQuery metricInfo)
        ++ generateContextualQueries metricInfo := by
  unfold enhanceQueries
  rw [foldl_map_append]
  simp

/-- C2: every metric name ending in `_total` classifies as counter, and every
name containing `_bucket` classifies as histogram unless it also matches the
counter rule (suffix `_total`, or containing `_count`, `requests` or
`errors`), in which case counter wins because that rule is checked first; in
particular `request_count_bucket` classifies as counter. -/
theorem inferMetricType_total_and_bucket :
    (∀ metricName : Str, goHasSuffix metricName ("_total".toList) = true →
      inferMetricType metricName = .counter) ∧
    (∀ metricName : Str, goContains metricName ("_bucket".toList) = true →
      ((goHasSuffix metricName ("_total".toList)
          || goContains metricName ("_count".toList)
          || goContains metricName ("requests".toList)
          || goContains metricName ("errors".toList)) = true →
        inferMetricType metricName = .counter) ∧
      ((goHasSuffix metricName ("_total".toList)
          || goContains metricName ("_count".toList)
          || goContains metricName ("requests".toList)
          || goContains metricName ("errors".toList)) = false →
        inferMetricType metricName = .histogram)) ∧
    inferMetricType ("request_count_bucket".toList) = .counter := by
  refine ⟨?_, ?_, by decide⟩
  · intro metricName h
    unfold inferMetricType
    rw [h]
    simp
  · intro metricName hb
    constructor
    · intro hc
      unfold inferMetricType
      rw [hc]
      simp
    · intro hc
      unfold inferMetricType
      rw [hc, hb]
      simp

/-- Witness for C2 at concrete metric names. -/
theorem inferMetricType_total_and_bucket_witness :
    inferMetricType ("jobs_done_total".toList) = .counter ∧
    inferMetricType ("io_wait_bucket".toList) = .histogram ∧
    inferMetricType ("request_count_bucket".toList) = .counter :=
  ⟨inferMetricType_total_and_bucket.1 _ (by decide),
   (inferMetricType_total_and_bucket.2.1 _ (by decide)).2 (by decide),
   inferMetricType_total_and_bucket.2.2⟩

/-- C3: the query generator returns a non-empty suggestion list for every
`MetricInfo`, whatever its name, labels and type. -/
theorem generateQueries_nonempty (metricInfo : MetricInfo) :
    generateQueries metricInfo ≠ [] := by
  rcases metricInfo with ⟨name, ty, help, labels⟩
  cases ty with
  | counter =>
    rw [show generateQueries ⟨name, .counter, help, labels⟩
        = generateCounterQueries ⟨name, .counter, help, labels⟩ from rfl,
      generateCounterQueries_eq]
    simp
  | gauge =>
    show generateGaugeQueries _ ≠ []
    unfold generateGaugeQueries
    by_cases h : 0 < labels.length
    · simp only [h, if_pos]
      rw [foldl_filter_append]
      simp
    · simp [h]
  | histogram =>
    show generateHistogramQueries _ ≠ []
    simp [generateHistogramQueries]
  | summary =>
    show generateSummaryQueries _ ≠ []
    unfold generateSummaryQueries
    dsimp only
    cases h : goContains name ("_count".toList)
        || goContains name ("_sum".toList) with
    | true => simp [List.foldl]
    | false => simp
  | unknown =>
    show generateDefaultQueries _ ≠ []
    unfold generateDefaultQueries
    dsimp only
    cases h : goHasSuffix name ("_total".toList)
        || goContains name ("_count".toList)
        || goContains name ("requests".toList)
        || goContains name ("errors".toList) with
    | true =>
      simp only [if_true]
      rw [generateCounterQueries_eq]
      simp
    | false => simp

/-- C4: best-query selection returns the head of a non-empty list and the
fixed `up` fallback on the empty list. -/
theorem getBestQuery_spec :
    getBestQuery []
        = { query := ("up".toList)
            description := ("Default query".toList)
            visualizationType := ("timeseries".toList)
            yAxisLabel := ("value".toList) } ∧
    ∀ (s : QuerySuggestion) (l : List QuerySuggestion),
      getBestQuery (s :: l) = s :=
  ⟨rfl, fun _ _ => rfl⟩

/-- The loop condition on a label, as a proposition. -/
theorem labelEligible_iff (label : Str) :
    labelEligible label = true
      ↔ (label ≠ ("__name__".toList)
          ∧ ("__".toList).isPrefixOf label = false) := by
  simp [labelEligible]

/-- C5: enhancement returns the per-suggestion enhanced copies first, in input
order, followed by the contextual queries derived from the `MetricInfo` alone;
hence the result is at least as long as the input. -/
theorem enhanceQueries_ordering (metricInfo : MetricInfo)
    (suggestions : List QuerySuggestion) :
    enhanceQueries metricInfo suggestions
        = suggestions.map (enhanceQuery metricInfo)
          ++ generateContextualQueries metricInfo ∧
    suggestions.length ≤ (enhanceQueries metricInfo suggestions).length := by
  refine ⟨enhanceQueries_eq metricInfo suggestions, ?_⟩
  rw [enhanceQueries_eq]
  simp

/-- C10: the per-suggestion enhancement step keeps the y-axis label of every
input suggestion: output position `i` (for `i` below the input length) is the
enhanced copy of input `i`, whose `yAxisLabel` equals the input one (the
embedding is a pure function, so the input list itself is unchanged). -/
theorem enhanceQuery_frame (metricInfo : MetricInfo)
    (suggestions : List QuerySuggestion) (i : Nat)
    (h : i < suggestions.length) :
    (enhanceQueries metricInfo suggestions).get? i
        = some (enhanceQuery metricInfo (suggestions.get ⟨i, h⟩)) ∧
    (enhanceQuery metricInfo (suggestions.get ⟨i, h⟩)).yAxisLabel
        = (suggestions.get ⟨i, h⟩).yAxisLabel := by
  refine ⟨?_, rfl⟩
  rw [enhanceQueries_eq]
  rw [List.get?_append (by simpa using h)]
  rw [List.get?_map, List.get?_eq_get h]
  rfl

/-- Witness for C10 at a concrete metric and suggestion list. -/
theorem enhanceQuery_frame_witness :
    (enhanceQueries ⟨("memory_usage".toList), .gauge, [], []⟩
        [{ query := ("memory_usage".toList)
           description := ("Current value".toList)
           visualizationType := ("timeseries".toList)
           yAxisLabel := ("value".toList) }]).get? 0
      = some (enhanceQuery ⟨("memory_usage".toList), .gauge, [], []⟩
          { query := ("memory_usage".toList)
            description := ("Current value".toList)
            visualizationType := ("timeseries".toList)
            yAxisLabel := ("value".toList) }) ∧
    (enhanceQuery ⟨("memory_usage".toList), .gauge, [], []⟩
        { query := ("memory_usage".toList)
          description := ("Current value".toList)
          visualizationType := ("timeseries".toList)
          yAxisLabel := ("value".toList) }).yAxisLabel = ("value".toList) :=
  ⟨(enhanceQuery_frame ⟨("memory_usage".toList), .gauge, [], []⟩
      [{ query := ("memory_usage".toList)
         description := ("Current value".toList)
         visualizationType := ("timeseries".toList)
         yAxisLabel := ("value".toList) }] 0 (by decide)).1,
   (enhanceQuery_frame ⟨("memory_usage".toList), .gauge, [], []⟩
      [{ query := ("memory_usage".toList)
         description := ("Current value".toList)
         visualizationType := ("timeseries".toList)
         yAxisLabel := ("value".toList) }] 0 (by decide)).2⟩

/-- C6: for a counter `MetricInfo` the generator always contains the
`rate(<name>[5m])` and `increase(<name>[1h])` suggestions, and contains the
`sum by (<label>) (rate(<name>[5m]))` suggestion for exactly the labels that
are not `__name__` and do not start with `__`. -/
theorem generateCounterQueries_includes_and_filters (metricInfo : MetricInfo)
    (h : metricInfo.type = .counter) :
    counterRateSuggestion metricInfo.name ∈ generateQueries metricInfo ∧
    counterIncreaseSuggestion metricInfo.name ∈ generateQueries metricInfo ∧
    ∀ label : Str,
      counterGroupedSuggestion metricInfo.name label ∈ generateQueries metricInfo
        ↔ (label ∈ metricInfo.labels ∧ label ≠ ("__name__".toList)
            ∧ ("__".toList).isPrefixOf label = false) := by
  have hq : generateQueries metricInfo = generateCounterQueries metricInfo := by
    unfold generateQueries
    rw [h]
  rw [hq, generateCounterQueries_eq]
  refine ⟨by simp, by simp, ?_⟩
  intro label
  constructor
  · intro hm
    rcases List.mem_append.mp hm with hbase | hmap
    · exfalso
      simp only [List.mem_cons, List.not_mem_nil, or_false] at hbase
      rcases hbase with h1 | h1
      · have hc := congrArg (fun s => s.query.head?) h1
        have e1 : (counterGroupedSuggestion metricInfo.name label).query.head?
            = some 's' := rfl
        have e2 : (counterRateSuggestion metricInfo.name).query.head?
            = some 'r' := rfl
        simp only at hc
        rw [e1, e2] at hc
        exact absurd (Option.some.inj hc) (by decide)
      · have hc := congrArg (fun s => s.query.head?) h1
        have e1 : (counterGroupedSuggestion metricInfo.name label).query.head?
            = some 's' := rfl
        have e2 : (counterIncreaseSuggestion metricInfo.name).query.head?
            = some 'i' := rfl
        simp only at hc
        rw [e1, e2] at hc
        exact absurd (Option.some.inj hc) (by decide)
    · rcases List.mem_map.mp hmap with ⟨a, ha, heq⟩
      have hd := congrArg QuerySuggestion.description heq
      have hal : a = label := by
        have : ("Rate per second grouped by ".toList) ++ a
            = ("Rate per second grouped by ".toList) ++ label := hd
        exact List.append_cancel_left this
      subst hal
      have := List.mem_filter.mp ha
      exact ⟨this.1, (labelEligible_iff a).mp this.2⟩
  · intro ⟨hmem, hne, hpf⟩
    refine List.mem_append.mpr (Or.inr ?_)
    exact List.mem_map_of_mem _
      (List.mem_filter.mpr ⟨hmem, (labelEligible_iff label).mpr ⟨hne, hpf⟩⟩)

/-- Witness for C6: with labels `method`, `status`, `__name__` the grouped
query exists for `method` but not for `__name__`. -/
theorem generateCounterQueries_includes_and_filters_witness :
    counterGroupedSuggestion ("http_requests_total".toList) ("method".toList)
        ∈ generateQueries ⟨("http_requests_total".toList), .counter, [],
            [("method".toList), ("status".toList), ("__name__".toList)]⟩ ∧
    counterGroupedSuggestion ("http_requests_total".toList) ("__name__".toList)
        ∉ generateQueries ⟨("http_requests_total".toList), .counter, [],
            [("method".toList), ("status".toList), ("__name__".toList)]⟩ := by
  have h := generateCounterQueries_includes_and_filters
    ⟨("http_requests_total".toList), .counter, [],
      [("method".toList), ("status".toList), ("__name__".toList)]⟩ rfl
  constructor
  · exact (h.2.2 _).mpr ⟨by decide, by decide, by decide⟩
  · intro hm
    exact ((h.2.2 _).mp hm).2.1 rfl

/-- C1 (amended): for every summary `MetricInfo` the generator emits the
request-rate and average-value suggestions, and emits the
`<baseName>{quantile="<q>"}` suggestion for each q in 0.5, 0.9, 0.95, 0.99
exactly when the metric name contains `_count` or `_sum` (not
unconditionally). -/
theorem generateSummaryQueries_quantiles (metricInfo : MetricInfo)
    (h : metricInfo.type = .summary) :
    summaryRateSuggestion
        (goTrimSuffix (goTrimSuffix metricInfo.name ("_count".toList))
          ("_sum".toList))
      ∈ generateQueries metricInfo ∧
    summaryAvgSuggestion
        (goTrimSuffix (goTrimSuffix metricInfo.name ("_count".toList))
          ("_sum".toList))
      ∈ generateQueries metricInfo ∧
    ∀ q ∈ [("0.5".toList), ("0.9".toList), ("0.95".toList), ("0.99".toList)],
      (summaryQuantileSuggestion
          (goTrimSuffix (goTrimSuffix metricInfo.name ("_count".toList))
            ("_sum".toList)) q
        ∈ generateQueries metricInfo
      ↔ (goContains metricInfo.name ("_count".toList)
          || goContains metricInfo.name ("_sum".toList)) = true) := by
  have hq : generateQueries metricInfo = generateSummaryQueries metricInfo := by
    unfold generateQueries
    rw [h]
  rw [hq]
  unfold generateSummaryQueries
  dsimp only
  cases hc : goContains metricInfo.name ("_count".toList)
      || goContains metricInfo.name ("_sum".toList) with
  | true =>
    refine ⟨by simp [List.foldl], by simp [List.foldl], ?_⟩
    intro q hql
    simp only [List.mem_cons, List.not_mem_nil, or_false] at hql
    constructor
    · intro _
      rfl
    · intro _
      rcases hql with rfl | rfl | rfl | rfl <;> simp [List.foldl]
  | false =>
    rw [if_neg (show ¬(false = true) from by decide)]
    refine ⟨by simp, by simp, ?_⟩
    intro q hql
    simp only [List.mem_cons, List.not_mem_nil, or_false] at hql
    constructor
    · intro hm
      exfalso
      simp only [List.mem_cons, List.not_mem_nil, or_false] at hm
      rcases hql with rfl | rfl | rfl | rfl <;>
        rcases hm with h1 | h1 <;>
        · have hd := congrArg QuerySuggestion.description h1
          simp only [summaryQuantileSuggestion, summaryRateSuggestion,
            summaryAvgSuggestion] at hd
          exact absurd hd (by decide)
    · intro hfalse
      exact absurd hfalse (by decide)

/-- C1 counterexample: a summary metric whose name contains neither `_count`
nor `_sum` gets no `{quantile="0.5"}` suggestion, refuting the claim that the
quantile suggestions are emitted for every metric name. -/
theorem summaryQuantiles_not_unconditional :
    summaryQuantileSuggestion ("temperature".toList) ("0.5".toList)
      ∉ generateQueries ⟨("temperature".toList), .summary,
          ("No metadata available".toList), []⟩ := by
  decide

/-- Witness for the amended C1 at a summary metric whose name contains `_count`. -/
theorem generateSummaryQueries_quantiles_witness :
    summaryQuantileSuggestion ("rpc_duration".toList) ("0.95".toList)
      ∈ generateQueries ⟨("rpc_duration_count".toList), .summary, [], []⟩ := by
  have h := generateSummaryQueries_quantiles
    ⟨("rpc_duration_count".toList), .summary, [], []⟩ rfl
  exact (h.2.2 ("0.95".toList) (by decide)).mpr (by decide)

/-- C7: evaluating the optimizer at the canonical histogram query shows the
` by (le)` clause is appended after the final closing parenthesis of the
query: the rewritten query has four opening but only three closing
parentheses, so the rewrite does not keep the parentheses balanced. -/
theorem optimizeQuery_histogram_rewrite_unbalanced :
    optimizeQuery ⟨("api_latency".toList), .histogram, [], []⟩
        ("histogram_quantile(0.95, rate(api_latency_bucket[5m]))".toList)
      = ("histogram_quantile(0.95, sum(rate(api_latency_bucket[5m])) by (le)".toList) ∧
    List.count '('
        ("histogram_quantile(0.95, sum(rate(api_latency_bucket[5m])) by (le)".toList)
      = 4 ∧
    List.count ')'
        ("histogram_quantile(0.95, sum(rate(api_latency_bucket[5m])) by (le)".toList)
      = 3 :=
  ⟨by decide, by decide, by decide⟩

/-- C8: the generate_promql_queries handler succeeds only when
`prometheus_url` is a non-empty string and `metric_names` a non-empty array
(anything else is a request-level failure); on valid arguments it returns one
result entry per metric name, a metadata-fetch failure only marks that
metric's entry with an error string, and a generator returning no suggestions
marks the entry with "no query suggestions could be generated". -/
theorem generatePromqlQueriesHandler_spec :
    (∀ (fetchMeta : Str → Except Str MetricInfo)
        (genQueries : MetricInfo → List QuerySuggestion)
        (args : GenArgs) (resp : GeneratePromqlQueriesResponse),
      generatePromqlQueriesHandler fetchMeta genQueries args = .ok resp →
        (∃ url, args.prometheusUrl = some (.str url) ∧ url ≠ []) ∧
        (∃ xs, args.metricNames = some (.arr xs) ∧ xs ≠ [])) ∧
    (∀ (fetchMeta : Str → Except Str MetricInfo)
        (genQueries : MetricInfo → List QuerySuggestion)
        (url : Str) (xs : List ArgVal), url ≠ [] → xs ≠ [] →
      generatePromqlQueriesHandler fetchMeta genQueries
          ⟨some (.str url), some (.arr xs)⟩
        = .ok { prometheusUrl := url
                results := (xs.filterMap
                    (fun v => match v with | .str s => some s | _ => none)).map
                  (processMetric fetchMeta genQueries) }) ∧
    (∀ (fetchMeta : Str → Except Str MetricInfo)
        (genQueries : MetricInfo → List QuerySuggestion)
        (metricName e : Str),
      fetchMeta metricName = .error e →
        (processMetric fetchMeta genQueries metricName).error
          = some (("failed to get metadata: ".toList) ++ e)) ∧
    (∀ (fetchMeta : Str → Except Str MetricInfo)
        (genQueries : MetricInfo → List QuerySuggestion)
        (metricName : Str) (mi : MetricInfo),
      fetchMeta metricName = .ok mi → genQueries mi = [] →
        (processMetric fetchMeta genQueries metricName).error
          = some ("no query suggestions could be generated".toList)) := by
  refine ⟨?_, ?_, ?_, ?_⟩
  · intro fetchMeta genQueries args resp h
    unfold generatePromqlQueriesHandler at h
    split at h
    next url hpu =>
      split at h
      next => exact absurd h (by simp)
      next hemp =>
        split at h
        next => exact absurd h (by simp)
        next xs hmn =>
          split at h
          next => exact absurd h (by simp)
          next hxe =>
            refine ⟨⟨url, hpu, ?_⟩, ⟨xs, hmn, ?_⟩⟩
            · intro hn
              exact hemp (by simp [hn])
            · intro hn
              exact hxe (by simp [hn])
        next v hmn hne => exact absurd h (by simp)
    next hother => exact absurd h (by simp)
  · intro fetchMeta genQueries url xs hu hx
    unfold generatePromqlQueriesHandler
    dsimp only
    rw [if_neg (by simpa [List.isEmpty_iff] using hu)]
    rw [if_neg (by simpa [List.isEmpty_iff] using hx)]
  · intro fetchMeta genQueries metricName e hfe
    unfold processMetric
    rw [hfe]
  · intro fetchMeta genQueries metricName mi hfe hgen
    unfold processMetric
    rw [hfe]
    dsimp only
    rw [hgen]
    simp

/-- Witness for C8: a failing fetch marks only its entry, an empty generator
yields the fixed error, and a valid request with one bad metric still returns
both result entries. -/
theorem generatePromqlQueriesHandler_spec_witness :
    (processMetric (fun _ => Except.error ("boom".toList)) generateQueries
        ("up".toList)).error
      = some (("failed to get metadata: ".toList) ++ ("boom".toList)) ∧
    (processMetric (fun _ => Except.ok ⟨("m".toList), .gauge, [], []⟩)
        (fun _ => []) ("m".toList)).error
      = some ("no query suggestions could be generated".toList) ∧
    generatePromqlQueriesHandler (fun _ => Except.error ("boom".toList))
        generateQueries
        ⟨some (.str ("http://prom".toList)),
          some (.arr [.str ("up".toList), .str ("down".toList)])⟩
      = .ok { prometheusUrl := ("http://prom".toList)
              results :=
                [processMetric (fun _ => Except.error ("boom".toList))
                    generateQueries ("up".toList),
                 processMetric (fun _ => Except.error ("boom".toList))
                    generateQueries ("down".toList)] } := by
  refine ⟨?_, ?_, ?_⟩
  · exact generatePromqlQueriesHandler_spec.2.2.1 _ generateQueries _ _ rfl
  · exact generatePromqlQueriesHandler_spec.2.2.2 _ _ _ _ rfl rfl
  · exact generatePromqlQueriesHandler_spec.2.1
      (fun _ => Except.error ("boom".toList)) generateQueries
      ("http://prom".toList) [.str ("up".toList), .str ("down".toList)]
      (by decide) (by simp)

/-- C9 (amended): with a valid `dashboard_title`, no `metric_names` and a
missing or empty `panels` array the handler always fails; the failure is the
`panels are required` error whenever deployment is not requested or its
prerequisites (deployment enabled, resolvable Grafana URL) hold — when
deploy=true with unsatisfied prerequisites the deployment error is returned
instead. -/
theorem createDashboardHandler_panels_required (cfg : Option GrafanaConfig)
    (genPanels : List ArgVal → Str → Except Str (List ArgVal))
    (deployDashboard : Str → Str → Except Str Unit)
    (args : CreateArgs) (title : Str)
    (htitle : args.dashboardTitle = some (ArgVal.str title)) (ht : title ≠ [])
    (hmn : args.metricNames = none)
    (hp : args.panels = none ∨ args.panels = some (ArgVal.arr [])) :
    (∃ e, createDashboardHandler cfg genPanels deployDashboard args = .error e) ∧
    ((deployFlag args = false
        ∨ ((∀ c, cfg = some c → c.deployEnabled = true)
            ∧ resolveGrafanaUrl cfg args ≠ [])) →
      createDashboardHandler cfg genPanels deployDashboard args
        = .error (("panels are required - provide either \x27panels\x27 ".toList)
            ++ ("array or \x27metric_names\x27 with \x27prometheus_url\x27".toList))) := by
  have hstep : deployPrecheck cfg args = Except.ok () →
      createDashboardHandler cfg genPanels deployDashboard args
        = .error (("panels are required - provide either \x27panels\x27 ".toList)
            ++ ("array or \x27metric_names\x27 with \x27prometheus_url\x27".toList)) := by
    intro hd
    unfold createDashboardHandler
    rw [htitle]
    dsimp only
    rw [if_neg (by simpa [List.isEmpty_iff] using ht)]
    rw [hd, hmn]
    dsimp only
    rcases hp with hp | hp <;> rw [hp] <;> rfl
  constructor
  · cases hpre : deployPrecheck cfg args with
    | error e =>
      refine ⟨e, ?_⟩
      unfold createDashboardHandler
      rw [htitle]
      dsimp only
      rw [if_neg (by simpa [List.isEmpty_iff] using ht)]
      rw [hpre]
    | ok u =>
      cases u
      exact ⟨_, hstep hpre⟩
  · intro hok
    apply hstep
    rcases hok with hflag | ⟨hen, hurl⟩
    · simp [deployPrecheck, hflag]
    · unfold deployPrecheck
      cases hflag2 : deployFlag args with
      | false => rfl
      | true =>
        cases cfg with
        | none =>
          simp [show List.isEmpty (resolveGrafanaUrl none args) = false from
            by simpa [List.isEmpty_iff] using hurl]
        | some c =>
          simp [hen c rfl,
            show List.isEmpty (resolveGrafanaUrl (some c) args) = false from
              by simpa [List.isEmpty_iff] using hurl]

/-- C9 counterexample: deploy=true with no configuration and no Grafana URL
makes the handler fail with the deployment error, whose message does not begin
with `panels are required`. -/
theorem createDashboardHandler_deploy_precheck_first :
    createDashboardHandler none (fun _ _ => Except.ok [])
        (fun _ _ => Except.ok ())
        ⟨some (.str ("t".toList)), some (.boolV true), none, none, none, none⟩
      = .error ("deployment requested but no grafana_url provided".toList) ∧
    ("panels are required".toList).isPrefixOf
        ("deployment requested but no grafana_url provided".toList) = false :=
  ⟨rfl, by decide⟩

/-- Witness for the amended C9 at a concrete invocation without deploy. -/
theorem createDashboardHandler_panels_required_witness :
    createDashboardHandler none (fun _ _ => Except.ok [])
        (fun _ _ => Except.ok ())
        ⟨some (.str ("t".toList)), none, none, none, none, none⟩
      = .error (("panels are required - provide either \x27panels\x27 ".toList)
          ++ ("array or \x27metric_names\x27 with \x27prometheus_url\x27".toList)) :=
  (createDashboardHandler_panels_required none (fun _ _ => Except.ok [])
      (fun _ _ => Except.ok ())
      ⟨some (.str ("t".toList)), none, none, none, none, none⟩
      ("t".toList) rfl (by decide) rfl (Or.inl rfl)).2 (Or.inl rfl)

end GrafanaAgent
